import Mathlib

/-!
Verification development for the image-to-ascii-api repository.

The repository ships two source files, `src/main.rs` (a Rocket web endpoint)
and `src/generate.rs` (the conversion driver).  The modules `convert`,
`font`, `gif`, `metrics` and `progress` are declared in `main.rs` but their
sources are not part of the repository snapshot; where a claim depends on
their behaviour, the corresponding definition below is modelled from the
design document (its doc comment says so explicitly).  Everything else is a
shallow embedding of the Rust code: pure functions become Lean functions,
the effectful body of `generate` becomes a function returning the list of
observable effects together with a termination status (normal return,
panic, or the infinite terminal-playback loop).
-/

namespace ImgToAscii

/-! ## Chunking of work lists

Modelled from the spec: the Tile Converter distributes independent tiles
across `thread_count` worker units (spec section 4.4).  `chunksOf s xs`
splits `xs` into contiguous chunks of `s + 1` elements each (the last chunk
may be shorter); each chunk is one worker's share.
-/

/-- Split a list into contiguous chunks of `s + 1` elements (last chunk may
be shorter).  An empty list yields no chunks. -/
def chunksOf (s : Nat) : List α → List (List α)
  | [] => []
  | x :: rest => (x :: rest.take s) :: chunksOf s (rest.drop s)
termination_by xs => xs.length
decreasing_by simp [List.length_drop]; omega

/-! ## Glyphs, fonts, frames (spec data model, sections 3 and 4.1) -/

/-- A glyph: a character, its pixel mask, and a precomputed brightness
(spec section 3). -/
structure Glyph where
  ch : Char
  mask : List Bool
  brightness : Int
deriving DecidableEq

/-- A glyph catalog: shared cell dimensions plus the ordered glyph list
(spec sections 3 and 4.1). -/
structure Font where
  cellW : Nat
  cellH : Nat
  glyphs : List Glyph

/-- One source frame: dimensions plus a luminance sampling function. -/
structure Frame where
  w : Nat
  h : Nat
  pix : Nat → Nat → Int

/-! ## Tile Sampler (spec section 4.3)

Modelled from the spec: `convert.rs` is not part of the repository
snapshot.  The output height preserves the frame's aspect ratio scaled to
`width * cellW` pixels divided by the cell height; edge coordinates are
clamped to the last pixel rather than padded.
-/

/-- Number of character rows for a frame (spec section 4.3). -/
def numRows (font : Font) (img : Frame) (width : Nat) : Nat :=
  img.h * (width * font.cellW) / img.w / font.cellH

/-- The tile for grid position `(r, c)`: a row-major list of `cellW * cellH`
luminances sampled from the scaled frame, clamped at the image edges. -/
def tileAt (font : Font) (img : Frame) (width : Nat) (r c : Nat) : List Int :=
  ((List.range font.cellH).map (fun y =>
    (List.range font.cellW).map (fun x =>
      img.pix (min ((r * font.cellH + y) * img.w / (width * font.cellW)) (img.h - 1))
              (min ((c * font.cellW + x) * img.w / (width * font.cellW)) (img.w - 1))))).flatten

/-- All tiles of a frame in row-major order. -/
def sampleTiles (font : Font) (img : Frame) (width : Nat) : List (List Int) :=
  ((List.range (numRows font img width)).map (fun r =>
    (List.range width).map (fun c => tileAt font img width r c))).flatten

/-! ## Tile Converter (spec section 4.4)

Modelled from the spec: `img_to_char_rows` lives in `convert.rs`, which is
not part of the repository snapshot; only its call site in `generate.rs`
(lines 146-155) is.  Per the spec: brightness offset and noise perturbation
are applied per tile before scoring, edge detection replaces raw
luminances by the luminance gradient, the best glyph is the
minimum-scoring one with ties broken by catalog order (first wins), and
tiles are distributed across `thread_count` workers.  The extra `rng`
argument models the stream of random noise draws (one per tile index).
-/

/-- Additive brightness shift plus noise perturbation applied to a tile
before scoring (spec section 4.4). -/
def adjustTile (bo ns noise : Int) (t : List Int) : List Int :=
  t.map (fun p => p + bo + ns * noise)

/-- Discrete luminance gradient of a tile (spec section 4.4: with edge
detection, the gradient is computed first and matching is biased to it). -/
def gradientOf : List Int → List Int
  | [] => []
  | [_] => []
  | a :: b :: rest => (b - a) :: gradientOf (b :: rest)

/-- Minimum-scoring glyph, ties broken by catalog order (first wins). -/
def selectGlyph (metric : List Int → Glyph → Int) (t : List Int) :
    List Glyph → Option Glyph
  | [] => none
  | g :: gs => some (gs.foldl (fun best cand =>
      if metric t cand < metric t best then cand else best) g)

/-- Convert one tile to a character (spec section 4.4): adjust brightness
and noise, optionally take the gradient, then pick the best glyph. -/
def tileToChar (font : Font) (metric : List Int → Glyph → Int)
    (bo ns : Int) (ed : Bool) (noise : Int) (tile : List Int) : Char :=
  let t := adjustTile bo ns noise tile
  let t := if ed then gradientOf t else t
  match selectGlyph metric t font.glyphs with
  | some g => g.ch
  | none => ' '

/-- Typed failures of the Tile Converter (spec section 7). -/
inductive ConvError where
  | invalidThreadCount
deriving DecidableEq

/-- Modelled from the spec: `img_to_char_rows` from `convert.rs` (not part
of the repository snapshot; called from `generate.rs` lines 146-155).
Fails with `InvalidThreadCountError` for `threads = 0`; otherwise samples
the tiles, distributes them across `threads` contiguous chunks, converts
each tile independently, and reassembles the grid row-major.  `rng` models
the per-tile random noise draws. -/
def img_to_char_rows (font : Font) (img : Frame)
    (metric : List Int → Glyph → Int) (width : Nat) (brightness_offset : Int)
    (noise_scale : Int) (threads : Nat) (edge_detection : Bool)
    (rng : Nat → Int) : Except ConvError (List (List Char)) :=
  if threads = 0 then .error .invalidThreadCount
  else
    let tiles := sampleTiles font img width
    let csize := (tiles.length + threads - 1) / threads
    let work := chunksOf (csize - 1) tiles.enum
    let cells := (work.map (List.map (fun p =>
      tileToChar font metric brightness_offset noise_scale edge_detection
        (rng p.fst) p.snd))).flatten
    .ok (chunksOf (width - 1) cells)

/-! ## String primitives

The embedding uses its own structurally recursive string splitting and
matching (semantically the standard ones) so that every definition can be
evaluated on concrete inputs by kernel reduction.
-/

/-- Rust's `str::starts_with` for a string pattern: the first characters
of `s` equal the pattern. -/
def strStartsWith (s pre : String) : Bool :=
  s.toList.take pre.toList.length == pre.toList

/-- Split a character list at every occurrence of the separator. -/
def splitOnChar (c : Char) : List Char → List (List Char)
  | [] => [[]]
  | x :: xs =>
    let r := splitOnChar c xs
    if x = c then [] :: r
    else
      match r with
      | [] => [[x]]
      | y :: ys => (x :: y) :: ys

/-- Whether a character list starts with a dot. -/
def dotLead : List Char → Bool
  | '.' :: _ => true
  | _ => false

/-! ## Path extension semantics

Rust's `Path::extension()` as used in `generate.rs` lines 72 and 160:
the extension of the last path component, `None` when the component has
no embedded dot or is a dotfile with a single leading dot.
-/

/-- Last non-empty `/`-separated component of a path string. -/
def fileNameOf (s : String) : String :=
  String.mk (((splitOnChar '/' s.toList).filter (fun c => !c.isEmpty)).getLastD [])

/-- Extension of the last path component, following Rust's
`Path::extension` rules. -/
def pathExtension (s : String) : Option String :=
  let name := (fileNameOf s).toList
  let parts := splitOnChar '.' name
  if parts.length == 1 then none
  else if dotLead name && parts.length == 2 then none
  else some (String.mk (parts.getLastD []))

/-! ## JSON serialization

Embedding of `serde_json::to_string` on a `Vec<String>` as used in
`generate.rs` line 177: a JSON array of escaped strings with no
whitespace, control characters escaped with lowercase hex digits.
-/

/-- Lowercase hexadecimal digit. -/
def hexDigit (n : Nat) : Char :=
  if n < 10 then Char.ofNat (48 + n) else Char.ofNat (87 + n)

/-- Escape one character as serde_json does inside a JSON string. -/
def jsonEscapeChar (c : Char) : String :=
  if c = '"' then "\\\""
  else if c = '\\' then "\\\\"
  else if c = '\x08' then "\\b"
  else if c = '\x09' then "\\t"
  else if c = '\x0a' then "\\n"
  else if c = '\x0c' then "\\f"
  else if c = '\x0d' then "\\r"
  else if c.toNat < 32 then
    "\\u00" ++ String.mk [hexDigit (c.toNat / 16), hexDigit (c.toNat % 16)]
  else String.singleton c

/-- A JSON string literal for `s`. -/
def jsonEncodeString (s : String) : String :=
  "\"" ++ String.join (s.toList.map jsonEscapeChar) ++ "\""

/-- The exact output of `serde_json::to_string` on a vector of strings:
a JSON array of the encoded strings, comma separated, nothing else. -/
def serdeJsonToString (xs : List String) : String :=
  "[" ++ String.intercalate "," (xs.map jsonEncodeString) ++ "]"

/-! ## Messages -/

/-- Escape one character the way Rust's Debug formatting of `&str` does
(as used by the `{:?}` format specifier in `generate.rs` line 247). -/
def rustDebugEscapeChar (c : Char) : String :=
  if c = '"' then "\\\""
  else if c = '\\' then "\\\\"
  else if c = '\x0a' then "\\n"
  else if c = '\x0d' then "\\r"
  else if c = '\x09' then "\\t"
  else String.singleton c

/-- Rust Debug rendering of a string slice: quoted and escaped. -/
def rustDebugStr (s : String) : String :=
  "\"" ++ String.join (s.toList.map rustDebugEscapeChar) ++ "\""

/-- The message printed to stderr by `generate.rs` line 247. -/
def invalidUrlMsg (url : String) : String :=
  "Invalid URL format: " ++ rustDebugStr url

/-- Panic message of `Option::unwrap` on `None`. -/
def unwrapNoneMsg : String := "called Option::unwrap on a None value"

/-- Panic message of `Result::unwrap` on `Err`. -/
def unwrapErrMsg : String := "called Result::unwrap on an Err value"

/-! ## Renderers and alphabet/font resolution -/

/-- Modelled from the spec: `char_rows_to_string` from `convert.rs` (not
part of the repository snapshot); spec section 4.5: plain text is the rows
joined by line breaks, no color. -/
def char_rows_to_string (rows : List (List Char)) : String :=
  String.intercalate "\n" (rows.map (fun r => String.mk r))

/-- Where a named font or alphabet comes from: a built-in table entry or
the filesystem.  `generate.rs` lines 76-91 and 99-107: if the name is a
key of the built-in table its data is used, otherwise the name is treated
as a file path. -/
inductive SourceSel where
  | builtin (data : String)
  | file (path : String)
deriving DecidableEq

/-- The `contains_key` / fallback-to-path dispatch of `generate.rs`. -/
def selectSource (table : List (String × String)) (name : String) : SourceSel :=
  match table.lookup name with
  | some data => .builtin data
  | none => .file name

/-- Alphabet resolution, `generate.rs` lines 74-91: a built-in name gives
its characters; otherwise the name is a file path whose raw bytes are cast
one-to-one to characters.  A failed read is an unwrap panic, represented
as `.error` with the panic message. -/
def resolveAlphabet (alphabets : List (String × String))
    (readBytes : String → Option (List (Fin 256))) (name : String) :
    Except String (List Char) :=
  match selectSource alphabets name with
  | .builtin content => .ok content.toList
  | .file path =>
    match readBytes path with
    | some bytes => .ok (bytes.map (fun b => Char.ofNat b.val))
    | none => .error unwrapErrMsg

/-! ## The generate driver (`generate.rs`) -/

/-- The frame list built by `generate.rs` lines 137-141: both branches of
the `if in_extension == "gif"` produce the one-element vector holding the
single decoded image (`image.into()` is an identity conversion). -/
def framesFor {Img : Type} (image : Img) (in_extension : String) : List Img :=
  if in_extension = "gif" then [image] else [image]

/-- The `Params` struct of `generate.rs` lines 42-56. -/
structure Params where
  image_url : String
  font : String
  alphabet : String
  width : Nat
  metric : String
  threads : Nat
  no_color : Bool
  brightness_offset : ℚ
  noise_scale : ℚ
  out_path : Option String
  fps : ℚ
  no_edge_detection : Bool
deriving DecidableEq

/-- External collaborator functions used by `generate` whose sources are
not part of the repository snapshot (`font.rs`, `convert.rs`): font
loading, metric lookup, the tile conversion entry point, and the two
color renderers.  They are opaque to the claims settled here, so the
embedding is parametric in them. -/
structure Collab (Img Fnt Cv : Type) where
  fromBdfStream : String → List Char → Fnt
  fromBdf : String → List Char → Fnt
  getConverter : String → Cv
  conv : Fnt → Img → Cv → Nat → ℚ → ℚ → Nat → Bool → List (List Char)
  toHtml : List (List Char) → Img → String
  toTerm : List (List Char) → Img → String

/-- The outside world as `generate` observes it: the download result for a
URL, file contents for `fs::read`, and success of `fs::write` and
`image::save`. -/
structure Env (Img : Type) where
  download : String → Except String Img
  readBytes : String → Option (List (Fin 256))
  writeOk : String → Bool
  saveOk : String → Bool

/-- Observable effects of one `generate` run. -/
inductive Eff where
  | downloadReq (url : String)
  | fsWrite (path content : String)
  | imgSave (path : String)
  | gifWrite (path : String) (numFrames : Nat) (fps : ℚ)
  | printOut (s : String)
  | printErr (s : String)
deriving DecidableEq

/-- How one `generate` run ends: normal return, a process panic, or the
infinite terminal playback loop of `generate.rs` lines 225-235. -/
inductive Term where
  | normal
  | panic (msg : String)
  | playForever (frames : List String) (fps : ℚ)
deriving DecidableEq

/-- The font value computed in `generate.rs` lines 97-107: built-in font
data is parsed from the embedded stream, anything else is read as a BDF
file path. -/
def fontOf {Img Fnt Cv : Type} (C : Collab Img Fnt Cv)
    (fonts : List (String × String)) (name : String) (alphabet : List Char) : Fnt :=
  match selectSource fonts name with
  | .builtin data => C.fromBdfStream data alphabet
  | .file path => C.fromBdf path alphabet

/-- Per-frame conversion loop of `generate.rs` lines 143-157. -/
def convertFrames {Img Fnt Cv : Type} (C : Collab Img Fnt Cv) (font : Fnt)
    (conv : Cv) (args : Params) (frames : List Img) : List (List (List Char)) :=
  frames.map (fun img => C.conv font img conv args.width args.brightness_offset
    args.noise_scale args.threads (!args.no_edge_detection))

/-- The per-frame output strings of `generate.rs` lines 162-176 and
207-221: with color, each grid is rendered together with its source frame;
without color, each grid is rendered as plain text. -/
def outStrings {Img : Type} (toStr : List (List Char) → Img → String)
    (color : Bool) (fcr : List (List (List Char))) (frames : List Img) :
    List String :=
  if color then (fcr.zip frames).map (fun p => toStr p.fst p.snd)
  else fcr.map char_rows_to_string

/-- Shallow embedding of `generate` (`generate.rs` lines 65-250): checks
the URL scheme, downloads, takes the input extension (unwrap), resolves
the alphabet (unwrap on file read), loads the font, converts each frame,
then dispatches on the output path and its extension exactly as the
source does.  Returns the list of observable effects and the termination
status. -/
def generate {Img Fnt Cv : Type} (C : Collab Img Fnt Cv) (env : Env Img)
    (alphabets fonts : List (String × String)) (args : Params) :
    List Eff × Term :=
  if strStartsWith args.image_url "http://" || strStartsWith args.image_url "https://" then
    match env.download args.image_url with
    | .ok image =>
      match pathExtension args.image_url with
      | none => ([.downloadReq args.image_url], .panic unwrapNoneMsg)
      | some in_extension =>
        match resolveAlphabet alphabets env.readBytes args.alphabet with
        | .error msg => ([.downloadReq args.image_url], .panic msg)
        | .ok alphabet =>
          let font := fontOf C fonts args.font alphabet
          let conv := C.getConverter args.metric
          let frames := framesFor image in_extension
          let frame_char_rows := convertFrames C font conv args frames
          match args.out_path with
          | some path =>
            match pathExtension path with
            | none => ([.downloadReq args.image_url], .panic unwrapNoneMsg)
            | some out_extension =>
              if out_extension = "json" then
                let out_frames := outStrings C.toHtml (!args.no_color) frame_char_rows frames
                let json := serdeJsonToString out_frames
                if env.writeOk path then
                  ([.downloadReq args.image_url, .fsWrite path json], .normal)
                else ([.downloadReq args.image_url], .panic unwrapErrMsg)
              else if out_extension = "gif" then
                ([.downloadReq args.image_url,
                  .gifWrite path frame_char_rows.length args.fps], .normal)
              else
                if env.saveOk path then
                  ([.downloadReq args.image_url, .imgSave path], .normal)
                else ([.downloadReq args.image_url], .panic unwrapErrMsg)
          | none =>
            let out_frames := outStrings C.toTerm (!args.no_color) frame_char_rows frames
            if in_extension = "gif" then
              ([.downloadReq args.image_url], .playForever out_frames args.fps)
            else
              ([.downloadReq args.image_url, .printOut (out_frames.headD "")], .normal)
    | .error e =>
      ([.downloadReq args.image_url,
        .printErr ("Error downloading image: " ++ e)], .normal)
  else
    ([.printErr (invalidUrlMsg args.image_url)], .normal)

/-! ## Terminal playback loop (`generate.rs` lines 225-235) -/

/-- The line printed for one frame: an ESC character, the `[2J`
clear-screen sequence, the frame text, and the newline appended by
`println!`. -/
def printedLine (frame : String) : String :=
  String.mk [Char.ofNat 27] ++ "[2J" ++ frame ++ "\n"

/-- The sleep duration between frames: the body computes
`delay = 1/fps - elapsed` and sleeps only when `delay > 0`, i.e. sleeps
zero otherwise. -/
def frameDelay (fps elapsed : ℚ) : ℚ :=
  if 1 / fps - elapsed > 0 then 1 / fps - elapsed else 0

/-- One iteration of the infinite playback loop, as a function of the
global iteration counter `k`: the `k`-th printed line is the frame at
index `k` modulo the frame count, and the sleep after it depends only on
that iteration's own render time `elapsedAt k` (the timer `t0` is reset
every iteration). -/
def playStep (frames : List String) (fps : ℚ) (elapsedAt : Nat → ℚ)
    (k : Nat) : String × ℚ :=
  (printedLine (frames.getD (k % frames.length) ""),
   frameDelay fps (elapsedAt k))

/-! ## The web endpoint handler (`main.rs` lines 17-41) -/

/-- Result of one call of the `get_image_url` route handler: the HTTP
response body, the `Params` value the handler constructs, and the list of
`generate` invocations it performs. -/
structure HandlerResult where
  response : String
  builtParams : Option Params
  generateCalls : List Params
deriving DecidableEq

/-- The `Params` literal built in `main.rs` lines 25-38. -/
def handlerParams (string_url : String) : Params where
  image_url := "https://" ++ string_url
  font := "bitocra-13"
  alphabet := "alphabet"
  width := 150
  metric := "grad"
  threads := 1
  no_color := false
  brightness_offset := 0
  noise_scale := 0
  out_path := none
  fps := 30
  no_edge_detection := false

/-- Shallow embedding of the `get_image_url` handler, `main.rs` lines
17-41.  The argument is `image_url.to_str()`: `none` models a non-UTF-8
path.  The handler builds `args` and then returns a string without ever
calling `generate`, so `generateCalls` is empty in both branches. -/
def get_image_url (image_url : Option String) : HandlerResult :=
  match image_url with
  | none => { response := "Invalid URL", builtParams := none, generateCalls := [] }
  | some string_url =>
      { response := "URL: " ++ string_url
        builtParams := some (handlerParams string_url)
        generateCalls := [] }

/-! ## Concrete instances used by the witnesses -/

/-- A two-glyph one-pixel-cell catalog. -/
def wFont : Font := ⟨1, 1, [⟨'#', [true], 1⟩, ⟨'.', [false], 0⟩]⟩

/-- A concrete 2 by 2 frame. -/
def wFrame : Frame := ⟨2, 2, fun r c => Int.ofNat (r + 2 * c)⟩

/-- A concrete coverage-style metric: squared distance between the tile's
luminance sum and the glyph brightness. -/
def wMetric : List Int → Glyph → Int :=
  fun t g => (t.foldl (fun a b => a + b) 0 - g.brightness) ^ 2

/-- One concrete random stream. -/
def wRngA : Nat → Int := fun n => Int.ofNat n

/-- Another concrete random stream. -/
def wRngB : Nat → Int := fun _ => 7

/-- Trivial collaborator instantiation over unit types. -/
def trivCollab : Collab Unit Unit Unit where
  fromBdfStream := fun _ _ => ()
  fromBdf := fun _ _ => ()
  getConverter := fun _ => ()
  conv := fun _ _ _ _ _ _ _ _ => [['x']]
  toHtml := fun _ _ => "H"
  toTerm := fun _ _ => "T"

/-- Environment where every external operation succeeds. -/
def envOk : Env Unit :=
  ⟨fun _ => .ok (), fun _ => some [], fun _ => true, fun _ => true⟩

/-- Environment where `fs::read` fails. -/
def envNoRead : Env Unit :=
  ⟨fun _ => .ok (), fun _ => none, fun _ => true, fun _ => true⟩

/-- Environment where `fs::write` fails. -/
def envNoWrite : Env Unit :=
  ⟨fun _ => .ok (), fun _ => some [], fun _ => false, fun _ => true⟩

/-- Environment where `image.save` fails. -/
def envNoSave : Env Unit :=
  ⟨fun _ => .ok (), fun _ => some [], fun _ => true, fun _ => false⟩

/-- A built-in alphabet table with the six keys of `generate.rs` and
stand-in contents (the alphabet text files are not part of the snapshot). -/
def wAlphabets : List (String × String) :=
  [("alphabet", "ab"), ("letters", "cd"), ("lowercase", "ef"),
   ("minimal", "g"), ("symbols", "h"), ("uppercase", "IJ")]

/-- Arguments with a non-HTTP URL scheme. -/
def argsFtp : Params := { handlerParams "x" with image_url := "ftp://x" }

/-- Arguments whose input URL has no file extension. -/
def argsNoExt : Params := handlerParams "host/image"

/-- Arguments with a PNG input URL and no output path. -/
def argsPng : Params := handlerParams "host/image.png"

/-- Arguments with a GIF input URL and no output path. -/
def argsGif : Params := handlerParams "host/anim.gif"

/-- PNG input, output path without an extension. -/
def argsOutNoExt : Params := { argsPng with out_path := some "out" }

/-- PNG input, JSON output path. -/
def argsOutJson : Params := { argsPng with out_path := some "out.json" }

/-- PNG input, PNG output path. -/
def argsOutPng : Params := { argsPng with out_path := some "out.png" }

/-! ## Helper lemmas -/

/-- Concatenating the chunks gives back the original list. -/
theorem chunksOf_flatten (s : Nat) : ∀ xs : List α, (chunksOf s xs).flatten = xs
  | [] => by simp [chunksOf]
  | x :: rest => by
      rw [chunksOf]
      have ih := chunksOf_flatten s (rest.drop s)
      simp [ih]
termination_by xs => xs.length
decreasing_by simp [List.length_drop]; omega

/-- Mapping over each worker's chunk and concatenating the results is the
same as mapping over the whole work list: chunking is invisible in the
output. -/
theorem chunksOf_map_flatten (s : Nat) (f : α → β) (xs : List α) :
    ((chunksOf s xs).map (List.map f)).flatten = xs.map f := by
  rw [← List.map_flatten, chunksOf_flatten]

/-- With zero noise scale the per-tile conversion does not depend on the
random draw. -/
theorem tileToChar_noise_zero (font : Font) (metric : List Int → Glyph → Int)
    (bo : Int) (ed : Bool) (r r' : Int) (t : List Int) :
    tileToChar font metric bo 0 ed r t = tileToChar font metric bo 0 ed r' t := by
  simp [tileToChar, adjustTile]

/-- The per-frame output string list has one entry per converted frame. -/
theorem outStrings_length {Img : Type} (toStr : List (List Char) → Img → String)
    (color : Bool) (fcr : List (List (List Char))) (frames : List Img)
    (h : fcr.length = frames.length) :
    (outStrings toStr color fcr frames).length = frames.length := by
  cases color <;> simp [outStrings, h]

/-- The conversion loop yields one character grid per frame. -/
theorem convertFrames_length {Img Fnt Cv : Type} (C : Collab Img Fnt Cv)
    (font : Fnt) (conv : Cv) (args : Params) (frames : List Img) :
    (convertFrames C font conv args frames).length = frames.length := by
  simp [convertFrames]

/-! ## Claim theorems -/

/-- C1: the conversion pipeline is supposed to hand one Frame per decoded
frame of an animated source to conversion and to the Animation Assembler;
the code's frame list (`generate.rs` lines 137-141) instead always has
length one, for GIF inputs as for static ones, because both branches of
the `if in_extension == "gif"` build the singleton vector of the one
decoded image. -/
theorem framesFor_always_singleton {Img : Type} (image : Img) (ext : String) :
    (framesFor image ext).length = 1 := by
  by_cases h : ext = "gif" <;> simp [framesFor, h]

/-- C4: with `noise_scale = 0` the tile conversion is deterministic — two
runs (with arbitrary, possibly different, hidden random draws) produce
identical character grids — and any `thread_count t ≥ 1` produces a grid
bit-identical to `thread_count = 1`. -/
theorem img_to_char_rows_deterministic (font : Font) (img : Frame)
    (metric : List Int → Glyph → Int) (width : Nat) (bo : Int) (t : Nat)
    (ed : Bool) (rngA rngB : Nat → Int) (ht : 1 ≤ t) :
    img_to_char_rows font img metric width bo 0 t ed rngA
      = img_to_char_rows font img metric width bo 0 1 ed rngB := by
  have ht0 : ¬t = 0 := by omega
  simp only [img_to_char_rows, if_neg ht0, if_neg (by omega : ¬(1 : Nat) = 0)]
  rw [chunksOf_map_flatten, chunksOf_map_flatten]
  have hfun : (fun p : Nat × List Int =>
        tileToChar font metric bo 0 ed (rngA p.fst) p.snd)
      = fun p => tileToChar font metric bo 0 ed (rngB p.fst) p.snd :=
    funext fun p =>
      tileToChar_noise_zero font metric bo ed (rngA p.fst) (rngB p.fst) p.snd
  rw [hfun]

/-- Witness for C4 at a concrete font, frame, metric and two distinct
random streams, with threads 3 against threads 1. -/
theorem img_to_char_rows_deterministic_witness :
    1 ≤ 3 ∧
    img_to_char_rows wFont wFrame wMetric 2 1 0 3 true wRngA
      = img_to_char_rows wFont wFrame wMetric 2 1 0 1 true wRngB :=
  ⟨by decide,
   img_to_char_rows_deterministic wFont wFrame wMetric 2 1 3 true wRngA wRngB
     (by decide)⟩

/-- C5: calling the tile converter with `thread_count = 0` fails with the
typed `InvalidThreadCountError` for every frame and configuration. -/
theorem img_to_char_rows_zero_threads (font : Font) (img : Frame)
    (metric : List Int → Glyph → Int) (width : Nat) (bo ns : Int)
    (ed : Bool) (rng : Nat → Int) :
    img_to_char_rows font img metric width bo ns 0 ed rng
      = .error .invalidThreadCount := by
  simp [img_to_char_rows]

/-- C7: when the alphabet argument is not a built-in named set it is
treated as a file path, and the resulting alphabet is exactly the file's
byte sequence with each byte mapped to the character of equal code point,
in file order. -/
theorem alphabet_file_bytes_as_chars (alphabets : List (String × String))
    (readBytes : String → Option (List (Fin 256))) (name : String)
    (bytes : List (Fin 256)) (h : alphabets.lookup name = none)
    (hr : readBytes name = some bytes) :
    resolveAlphabet alphabets readBytes name
      = .ok (bytes.map (fun b => Char.ofNat b.val)) := by
  simp [resolveAlphabet, selectSource, h, hr]

/-- Witness for C7: a name that is not one of the six built-in keys is
read from disk and its bytes 72, 105 become the characters H, i. -/
theorem alphabet_file_bytes_as_chars_witness :
    wAlphabets.lookup "my.txt" = none ∧
    (fun _ : String => some [(72 : Fin 256), 105]) "my.txt" = some [72, 105] ∧
    resolveAlphabet wAlphabets (fun _ => some [(72 : Fin 256), 105]) "my.txt"
      = .ok ['H', 'i'] :=
  ⟨by decide, rfl,
   alphabet_file_bytes_as_chars wAlphabets (fun _ => some [72, 105]) "my.txt"
     [72, 105] (by decide) rfl⟩

/-- C8: the `get_image_url` route handler never invokes `generate` (its
call list is empty for every request), returns the string `URL: ` followed
by the path for every valid UTF-8 path, and the `Params` value it builds
(width 150, metric grad, fps 30, and the rest) is built but goes nowhere. -/
theorem get_image_url_never_generates :
    (∀ o : Option String, (get_image_url o).generateCalls = []) ∧
    (∀ url : String,
      (get_image_url (some url)).response = "URL: " ++ url ∧
      (get_image_url (some url)).builtParams = some (handlerParams url) ∧
      (handlerParams url).width = 150 ∧ (handlerParams url).metric = "grad" ∧
      (handlerParams url).fps = 30 ∧
      (handlerParams url).image_url = "https://" ++ url) := by
  refine ⟨fun o => ?_, fun url => ⟨rfl, rfl, rfl, rfl, rfl, rfl⟩⟩
  cases o <;> rfl

/-- C9: when the image URL starts with neither `http://` nor `https://`,
`generate` performs no download, no conversion and produces no output
artifact: its entire effect trace is the single invalid-URL message on
stderr, and it returns normally. -/
theorem generate_invalid_url {Img Fnt Cv : Type} (C : Collab Img Fnt Cv)
    (env : Env Img) (alphabets fonts : List (String × String)) (args : Params)
    (h : (strStartsWith args.image_url "http://"
          || strStartsWith args.image_url "https://") = false) :
    generate C env alphabets fonts args
      = ([.printErr (invalidUrlMsg args.image_url)], .normal) := by
  simp [generate, h]

/-- Witness for C9 at the concrete non-HTTP URL `ftp://x`. -/
theorem generate_invalid_url_witness :
    ((strStartsWith argsFtp.image_url "http://"
      || strStartsWith argsFtp.image_url "https://") = false) ∧
    generate trivCollab envOk wAlphabets [] argsFtp
      = ([.printErr (invalidUrlMsg "ftp://x")], .normal) :=
  ⟨by decide,
   generate_invalid_url trivCollab envOk wAlphabets [] argsFtp (by decide)⟩

/-- C10: an unrecognized font or alphabet name never yields an
unknown-name error: whenever the supplied name is not a key of the
built-in table, the source dispatch resolves it to the filesystem path
branch, and alphabet resolution consults the file under that name. -/
theorem unknown_name_falls_back_to_path (table alphabets : List (String × String))
    (readBytes : String → Option (List (Fin 256))) (name : String)
    (h : table.lookup name = none) (h' : alphabets.lookup name = none) :
    selectSource table name = .file name ∧
    resolveAlphabet alphabets readBytes name
      = (match readBytes name with
         | some bytes => .ok (bytes.map (fun b => Char.ofNat b.val))
         | none => .error unwrapErrMsg) := by
  constructor
  · simp [selectSource, h]
  · simp [resolveAlphabet, selectSource, h']

/-- C2 counterexample: with an input URL that has no file extension and a
successful download, `generate` panics (the `Option::unwrap` on `None` at
`generate.rs` line 72) instead of reporting the failure to the caller as a
typed error, refuting the claim that no core error case panics. -/
theorem generate_missing_extension_panic_counterexample :
    (generate trivCollab envOk wAlphabets [] argsNoExt).snd
      = Term.panic unwrapNoneMsg := by
  decide

/-- C2 (amended): for inputs whose decode succeeds, the listed failure
cases are not reported as typed failures — each one panics via `unwrap`:
a missing file extension on the input URL, a missing (unreadable)
non-built-in alphabet file, a missing extension on the output path, a
failed file write for JSON output, and a failed image save for static
bitmap output. -/
theorem generate_failure_cases_panic :
    (∀ {Img Fnt Cv : Type} (C : Collab Img Fnt Cv) (env : Env Img)
        (A F : List (String × String)) (args : Params) (img : Img),
      (strStartsWith args.image_url "http://"
        || strStartsWith args.image_url "https://") = true →
      env.download args.image_url = .ok img →
      pathExtension args.image_url = none →
      (generate C env A F args).snd = .panic unwrapNoneMsg)
    ∧ (∀ {Img Fnt Cv : Type} (C : Collab Img Fnt Cv) (env : Env Img)
        (A F : List (String × String)) (args : Params) (img : Img)
        (ext : String),
      (strStartsWith args.image_url "http://"
        || strStartsWith args.image_url "https://") = true →
      env.download args.image_url = .ok img →
      pathExtension args.image_url = some ext →
      A.lookup args.alphabet = none →
      env.readBytes args.alphabet = none →
      (generate C env A F args).snd = .panic unwrapErrMsg)
    ∧ (∀ {Img Fnt Cv : Type} (C : Collab Img Fnt Cv) (env : Env Img)
        (A F : List (String × String)) (args : Params) (img : Img)
        (ext : String) (al : List Char) (p : String),
      (strStartsWith args.image_url "http://"
        || strStartsWith args.image_url "https://") = true →
      env.download args.image_url = .ok img →
      pathExtension args.image_url = some ext →
      resolveAlphabet A env.readBytes args.alphabet = .ok al →
      args.out_path = some p →
      pathExtension p = none →
      (generate C env A F args).snd = .panic unwrapNoneMsg)
    ∧ (∀ {Img Fnt Cv : Type} (C : Collab Img Fnt Cv) (env : Env Img)
        (A F : List (String × String)) (args : Params) (img : Img)
        (ext : String) (al : List Char) (p : String),
      (strStartsWith args.image_url "http://"
        || strStartsWith args.image_url "https://") = true →
      env.download args.image_url = .ok img →
      pathExtension args.image_url = some ext →
      resolveAlphabet A env.readBytes args.alphabet = .ok al →
      args.out_path = some p →
      pathExtension p = some "json" →
      env.writeOk p = false →
      (generate C env A F args).snd = .panic unwrapErrMsg)
    ∧ (∀ {Img Fnt Cv : Type} (C : Collab Img Fnt Cv) (env : Env Img)
        (A F : List (String × String)) (args : Params) (img : Img)
        (ext : String) (al : List Char) (p oe : String),
      (strStartsWith args.image_url "http://"
        || strStartsWith args.image_url "https://") = true →
      env.download args.image_url = .ok img →
      pathExtension args.image_url = some ext →
      resolveAlphabet A env.readBytes args.alphabet = .ok al →
      args.out_path = some p →
      pathExtension p = some oe →
      oe ≠ "json" →
      oe ≠ "gif" →
      env.saveOk p = false →
      (generate C env A F args).snd = .panic unwrapErrMsg) := by
  refine ⟨?_, ?_, ?_, ?_, ?_⟩
  · intro Img Fnt Cv C env A F args img hurl hdl hin
    simp [generate, hurl, hdl, hin]
  · intro Img Fnt Cv C env A F args img ext hurl hdl hin hA hrb
    simp [generate, hurl, hdl, hin, resolveAlphabet, selectSource, hA, hrb]
  · intro Img Fnt Cv C env A F args img ext al p hurl hdl hin hal hop hpe
    simp [generate, hurl, hdl, hin, hal, hop, hpe]
  · intro Img Fnt Cv C env A F args img ext al p hurl hdl hin hal hop hpe hw
    simp [generate, hurl, hdl, hin, hal, hop, hpe, hw]
  · intro Img Fnt Cv C env A F args img ext al p oe hurl hdl hin hal hop hpe
      hj hg hs
    simp [generate, hurl, hdl, hin, hal, hop, hpe, hj, hg, hs]

/-- Witness for the amended C2: one concrete scenario for each of the five
failure cases, each ending in a panic. -/
theorem generate_failure_cases_panic_witness :
    (generate trivCollab envOk wAlphabets [] argsNoExt).snd
        = Term.panic unwrapNoneMsg
    ∧ (generate trivCollab envNoRead [] [] argsPng).snd
        = Term.panic unwrapErrMsg
    ∧ (generate trivCollab envOk wAlphabets [] argsOutNoExt).snd
        = Term.panic unwrapNoneMsg
    ∧ (generate trivCollab envNoWrite wAlphabets [] argsOutJson).snd
        = Term.panic unwrapErrMsg
    ∧ (generate trivCollab envNoSave wAlphabets [] argsOutPng).snd
        = Term.panic unwrapErrMsg :=
  ⟨generate_failure_cases_panic.1 trivCollab envOk wAlphabets [] argsNoExt ()
      (by decide) rfl (by decide),
   generate_failure_cases_panic.2.1 trivCollab envNoRead [] [] argsPng ()
      "png" (by decide) rfl (by decide) rfl rfl,
   generate_failure_cases_panic.2.2.1 trivCollab envOk wAlphabets []
      argsOutNoExt () "png" "ab".toList "out"
      (by decide) rfl (by decide) rfl rfl (by decide),
   generate_failure_cases_panic.2.2.2.1 trivCollab envNoWrite wAlphabets []
      argsOutJson () "png" "ab".toList "out.json"
      (by decide) rfl (by decide) rfl rfl (by decide) rfl,
   generate_failure_cases_panic.2.2.2.2 trivCollab envNoSave wAlphabets []
      argsOutPng () "png" "ab".toList "out.png" "png"
      (by decide) rfl (by decide) rfl rfl (by decide) (by decide) (by decide)
      rfl⟩

/-- C3: during terminal playback of an animated input with no output path,
`generate` enters the infinite loop over the precomputed per-frame
strings; each printed line is the clear-screen escape followed by the
frame (cyclically, so the loop never runs out), and the sleep after a
frame equals `max 0 (1/fps - render_time)` of that frame's own render
time — never negative and independent of any other frame's render time. -/
theorem terminal_playback_timing {Img Fnt Cv : Type} (C : Collab Img Fnt Cv)
    (env : Env Img) (alphabets fonts : List (String × String)) (args : Params)
    (img : Img) (al : List Char) (outs : List String)
    (hurl : (strStartsWith args.image_url "http://"
             || strStartsWith args.image_url "https://") = true)
    (hdl : env.download args.image_url = .ok img)
    (hin : pathExtension args.image_url = some "gif")
    (hal : resolveAlphabet alphabets env.readBytes args.alphabet = .ok al)
    (hout : args.out_path = none)
    (houts : outs = outStrings C.toTerm (!args.no_color)
        (convertFrames C (fontOf C fonts args.font al)
          (C.getConverter args.metric) args (framesFor img "gif"))
        (framesFor img "gif")) :
    generate C env alphabets fonts args
      = ([.downloadReq args.image_url], .playForever outs args.fps)
    ∧ (∀ e, frameDelay args.fps e = max 0 (1 / args.fps - e))
    ∧ (∀ e, 0 ≤ frameDelay args.fps e)
    ∧ (∀ es k, (playStep outs args.fps es k).fst
        = printedLine (outs.getD (k % outs.length) ""))
    ∧ (∀ es k, (playStep outs args.fps es (k + outs.length)).fst
        = (playStep outs args.fps es k).fst)
    ∧ (∀ es es' k, es k = es' k →
        (playStep outs args.fps es k).snd = (playStep outs args.fps es' k).snd) := by
  subst houts
  refine ⟨?_, ?_, ?_, ?_, ?_, ?_⟩
  · simp [generate, hurl, hdl, hin, hal, hout]
  · intro e
    unfold frameDelay
    rcases le_or_lt (1 / args.fps - e) 0 with h | h
    · rw [if_neg (not_lt.mpr h), max_eq_left h]
    · rw [if_pos h, max_eq_right h.le]
  · intro e
    unfold frameDelay
    rcases le_or_lt (1 / args.fps - e) 0 with h | h
    · rw [if_neg (not_lt.mpr h)]
    · rw [if_pos h]; exact h.le
  · intro es k; rfl
  · intro es k; simp [playStep, Nat.add_mod_right]
  · intro es es' k h; simp [playStep, h]

/-- Witness for C3: a GIF URL with no output path enters playback with the
precomputed frame list, and the timing facts hold at concrete values. -/
theorem terminal_playback_timing_witness :
    pathExtension argsGif.image_url = some "gif"
    ∧ generate trivCollab envOk wAlphabets [] argsGif
        = ([.downloadReq argsGif.image_url], .playForever ["T"] argsGif.fps)
    ∧ frameDelay argsGif.fps (1 / 60) = max 0 (1 / argsGif.fps - 1 / 60)
    ∧ 0 ≤ frameDelay argsGif.fps (1 / 15)
    ∧ (playStep ["T"] argsGif.fps (fun _ => 0) (4 + 1)).fst
        = (playStep ["T"] argsGif.fps (fun _ => 0) 4).fst
    ∧ (playStep ["T"] argsGif.fps (fun _ => 3) 2).snd
        = (playStep ["T"] argsGif.fps (fun _ => 2 + 1) 2).snd := by
  have h := terminal_playback_timing trivCollab envOk wAlphabets [] argsGif ()
    "ab".toList ["T"] (by decide) rfl (by decide) rfl rfl rfl
  exact ⟨by decide, h.1, h.2.1 (1 / 60), h.2.2.1 (1 / 15),
    h.2.2.2.2.1 (fun _ => 0) 4,
    h.2.2.2.2.2 (fun _ => 3) (fun _ => 2 + 1) 2 (by norm_num)⟩

/-- C6: when the output path has a `json` extension, the whole effect of
`generate` beyond the download is a single file write to that path whose
content is exactly the JSON array of the per-frame strings — the
HTML-colored rendering when color is enabled, the plain-text rendering
when `no_color` is set — with one array element per converted frame. -/
theorem generate_json_output {Img Fnt Cv : Type} (C : Collab Img Fnt Cv)
    (env : Env Img) (alphabets fonts : List (String × String)) (args : Params)
    (img : Img) (inExt : String) (al : List Char) (p : String)
    (frames : List Img) (fcr : List (List (List Char))) (outs : List String)
    (hurl : (strStartsWith args.image_url "http://"
             || strStartsWith args.image_url "https://") = true)
    (hdl : env.download args.image_url = .ok img)
    (hin : pathExtension args.image_url = some inExt)
    (hal : resolveAlphabet alphabets env.readBytes args.alphabet = .ok al)
    (hout : args.out_path = some p)
    (hoe : pathExtension p = some "json")
    (hw : env.writeOk p = true)
    (hframes : frames = framesFor img inExt)
    (hfcr : fcr = convertFrames C (fontOf C fonts args.font al)
        (C.getConverter args.metric) args frames)
    (houts : outs = outStrings C.toHtml (!args.no_color) fcr frames) :
    generate C env alphabets fonts args
      = ([.downloadReq args.image_url,
          .fsWrite p (serdeJsonToString outs)], .normal)
    ∧ outs.length = frames.length := by
  subst hframes hfcr houts
  constructor
  · simp [generate, hurl, hdl, hin, hal, hout, hoe, hw]
  · exact outStrings_length _ _ _ _
      (convertFrames_length C (fontOf C fonts args.font al)
        (C.getConverter args.metric) args (framesFor img inExt))

/-- Witness for C6: a concrete run with a `.json` output path writes the
JSON array of the one per-frame string and nothing else. -/
theorem generate_json_output_witness :
    pathExtension "out.json" = some "json"
    ∧ envOk.writeOk "out.json" = true
    ∧ (generate trivCollab envOk wAlphabets [] argsOutJson
        = ([.downloadReq "https://host/image.png",
            .fsWrite "out.json" (serdeJsonToString ["H"])], .normal)
       ∧ (["H"] : List String).length = ([()] : List Unit).length) :=
  ⟨by decide, rfl,
   generate_json_output trivCollab envOk wAlphabets [] argsOutJson () "png"
     "ab".toList "out.json" [()] [[['x']]] ["H"]
     (by decide) rfl (by decide) rfl rfl (by decide) rfl
     (by decide) rfl rfl⟩

/-- Witness for C10: the name `custom.bdf` is in neither built-in table
and resolves to the path branch. -/
theorem unknown_name_falls_back_to_path_witness :
    [("courier", "c"), ("bitocra-13", "b")].lookup "custom.bdf" = none ∧
    wAlphabets.lookup "custom.bdf" = none ∧
    selectSource [("courier", "c"), ("bitocra-13", "b")] "custom.bdf"
      = .file "custom.bdf" ∧
    resolveAlphabet wAlphabets (fun _ => none) "custom.bdf"
      = .error unwrapErrMsg :=
  ⟨by decide, by decide,
   (unknown_name_falls_back_to_path [("courier", "c"), ("bitocra-13", "b")]
      wAlphabets (fun _ => none) "custom.bdf" (by decide) (by decide)).1,
   (unknown_name_falls_back_to_path [("courier", "c"), ("bitocra-13", "b")]
      wAlphabets (fun _ => none) "custom.bdf" (by decide) (by decide)).2⟩

end ImgToAscii
